import Mathlib

/-!
Verification of the Google Vision OCR plugin (`src/ocr_plugin.py`).

The development shallowly embeds the plugin's data model and its
response-to-hOCR transcoding routines, then proves the documented
properties about them.  JSON objects from the Vision API reply are
embedded as structures whose optional keys are `Option` fields; a
`.get(key, default)` access in the Python source becomes `.getD` here.
Python floats (symbol confidences) are embedded as exact rationals,
and Python's `int()` conversion as truncation toward zero.
-/

namespace OcrPlugin

/-- A corner point of a bounding quadrilateral: the JSON objects in
`boundingBox.vertices`.  Both coordinates are optional keys
(`vertex.get("x", 0)` in the source). -/
structure Vertex where
  x? : Option ℤ
  y? : Option ℤ
  deriving DecidableEq

/-- A `boundingBox` JSON object: an optional `vertices` key holding a
list of corner points; a missing key reads as the empty list
(`bounding_box.get("vertices", [])`). -/
structure BoundingBox where
  vertices : List Vertex
  deriving DecidableEq

/-- A `symbols` entry: optional literal text (`symbol.get("text", "")`)
and optional confidence (`s.get("confidence", 0.9)`). -/
structure Symbol where
  text? : Option String
  confidence? : Option ℚ
  deriving DecidableEq

/-- A `words` entry: optional bounding box and symbol list. -/
structure Word where
  boundingBox? : Option BoundingBox
  symbols : List Symbol
  deriving DecidableEq

/-- A `paragraphs` entry: optional bounding box and word list. -/
structure Paragraph where
  boundingBox? : Option BoundingBox
  words : List Word
  deriving DecidableEq

/-- A `blocks` entry: optional bounding box and paragraph list. -/
structure Block where
  boundingBox? : Option BoundingBox
  paragraphs : List Paragraph
  deriving DecidableEq

/-- A `pages` entry: optional pixel width/height (`page.get("width", 1)`)
and block list. -/
structure Page where
  width? : Option ℤ
  height? : Option ℤ
  blocks : List Block
  deriving DecidableEq

/-- Python's `int()` on a rational value: truncation toward zero.  On a
normalized rational `num/den` with `den > 0` this is exactly
`Int.tdiv num den`. -/
def pyInt (q : ℚ) : ℤ := Int.tdiv q.num q.den

/-- Characters stripped by Python's `str.strip()`: everything
`str.isspace()` accepts, i.e. the ASCII whitespace `\t \n \v \f \r`
and space, the file/group/record/unit separators U+001C-U+001F, NEL
U+0085, NBSP U+00A0, Ogham space U+1680, the typographic spaces
U+2000-U+200A, the line/paragraph separators U+2028/U+2029, narrow NBSP
U+202F, medium mathematical space U+205F and ideographic space
U+3000. -/
def pyIsSpace (c : Char) : Bool :=
  c = ' ' || c = '\t' || c = '\n' || c = '\r' || c = '\x0b' || c = '\x0c'
    || c = '\x1c' || c = '\x1d' || c = '\x1e' || c = '\x1f'
    || c = '\x85' || c = '\xa0' || c = '\u1680'
    || ('\u2000' ≤ c && c ≤ '\u200a')
    || c = '\u2028' || c = '\u2029' || c = '\u202f' || c = '\u205f' || c = '\u3000'

/-- Python's `str.strip()`: drop leading and trailing whitespace. -/
def pyStrip (s : String) : String :=
  String.mk (((s.data.dropWhile pyIsSpace).reverse.dropWhile pyIsSpace).reverse)

/-- Embeds `_get_bbox` (src/ocr_plugin.py lines 175-186): fewer than four
vertices degenerates to `"0 0 0 0"`; otherwise the string is built from
vertices 0 and 2, each coordinate defaulting to 0 and clamped with
`max(..., 0)`. -/
def _get_bbox (bounding_box : BoundingBox) : String :=
  match bounding_box.vertices with
  | v0 :: _ :: v2 :: _ :: _ =>
    let x1 := max (v0.x?.getD 0) 0
    let y1 := max (v0.y?.getD 0) 0
    let x2 := max (v2.x?.getD 0) 0
    let y2 := max (v2.y?.getD 0) 0
    s!"{x1} {y1} {x2} {y2}"
  | _ => "0 0 0 0"

/-- Embeds `_get_confidence` (src/ocr_plugin.py lines 189-197): a word
with no symbols scores 90; otherwise the mean of the symbol confidences
(defaulting to 0.9 each) is scaled by 100 and converted with `int()`. -/
def _get_confidence (word : Word) : ℤ :=
  let symbols := word.symbols
  if symbols.isEmpty then 90
  else
    let confidences := symbols.map (fun s => s.confidence?.getD (9/10))
    let avg := confidences.sum / (confidences.length : ℚ)
    pyInt (avg * 100)

/-- Replace every occurrence of the character `c` by the string `r`:
Python's `str.replace` specialized to the single-character patterns used
at src/ocr_plugin.py lines 150-155. -/
def replace_each (c : Char) (r : List Char) : List Char → List Char
  | [] => []
  | a :: rest => (if a = c then r else [a]) ++ replace_each c r rest

/-- Embeds the escaping chain of `_generate_hocr` (src/ocr_plugin.py
lines 150-155): `&`, `<`, `>`, `"` are replaced, in that order, by
their entity equivalents. -/
def _escape_word_text (t : String) : String :=
  String.mk
    (replace_each '"' "&quot;".data
      (replace_each '>' "&gt;".data
        (replace_each '<' "&lt;".data
          (replace_each '&' "&amp;".data t.data))))

/-- The concatenated symbol text of a word
(`"".join(symbol.get("text", "") for symbol in word.get("symbols", []))`,
src/ocr_plugin.py lines 142-144). -/
def word_text_of (word : Word) : String :=
  String.join (word.symbols.map (fun s => s.text?.getD ""))

/-- One iteration of the word loop of `_generate_hocr`
(src/ocr_plugin.py lines 140-162): given the current `word_id`, either
skip the word (whitespace-only text, counter unchanged, no output line)
or emit one `ocrx_word` leaf under the incremented counter. -/
def render_word (word : Word) (word_id : Nat) : Nat × List String :=
  let word_bbox := _get_bbox (word.boundingBox?.getD ⟨[]⟩)
  let word_text := word_text_of word
  if pyStrip word_text = "" then (word_id, [])
  else
    let word_text := _escape_word_text word_text
    let word_id := word_id + 1
    let conf := _get_confidence word
    (word_id,
      [s!"          <span class=\"ocrx_word\" id=\"word_{word_id}\" title=\"bbox {word_bbox}; x_wconf {conf}\">{word_text}</span>"])

/-- The word loop of `_generate_hocr`, threading `word_id`. -/
def render_words : List Word → Nat → Nat × List String
  | [], word_id => (word_id, [])
  | w :: ws, word_id =>
    let r := render_word w word_id
    let rest := render_words ws r.1
    (rest.1, r.2 ++ rest.2)

/-- One iteration of the paragraph loop of `_generate_hocr`
(src/ocr_plugin.py lines 127-165): open an `ocr_par` container and one
synthetic `ocr_line` container (both titled with the paragraph's bbox),
render the words, then close both containers. -/
def render_paragraph (paragraph : Paragraph) (par_id line_id word_id : Nat) :
    (Nat × Nat × Nat) × List String :=
  let par_bbox := _get_bbox (paragraph.boundingBox?.getD ⟨[]⟩)
  let par_id := par_id + 1
  let line_id := line_id + 1
  let r := render_words paragraph.words word_id
  ((par_id, line_id, r.1),
    [s!"      <p class=\"ocr_par\" id=\"par_{par_id}\" title=\"bbox {par_bbox}\">",
     s!"        <span class=\"ocr_line\" id=\"line_{line_id}\" title=\"bbox {par_bbox}\">"]
    ++ r.2 ++ ["        </span>", "      </p>"])

/-- The paragraph loop of `_generate_hocr`, threading the three counters
`par_id`, `line_id`, `word_id`. -/
def render_paragraphs : List Paragraph → Nat → Nat → Nat → (Nat × Nat × Nat) × List String
  | [], par_id, line_id, word_id => ((par_id, line_id, word_id), [])
  | p :: ps, par_id, line_id, word_id =>
    let r := render_paragraph p par_id line_id word_id
    let rest := render_paragraphs ps r.1.1 r.1.2.1 r.1.2.2
    (rest.1, r.2 ++ rest.2)

/-- One iteration of the block loop of `_generate_hocr`
(src/ocr_plugin.py lines 120-166): open an `ocr_carea` container titled
with the block's bbox, render the paragraphs, close the container. -/
def render_block (block : Block) (block_id par_id line_id word_id : Nat) :
    (Nat × Nat × Nat × Nat) × List String :=
  let block_bbox := _get_bbox (block.boundingBox?.getD ⟨[]⟩)
  let block_id := block_id + 1
  let r := render_paragraphs block.paragraphs par_id line_id word_id
  ((block_id, r.1.1, r.1.2.1, r.1.2.2),
    s!"    <div class=\"ocr_carea\" id=\"block_{block_id}\" title=\"bbox {block_bbox}\">"
    :: r.2 ++ ["    </div>"])

/-- The block loop of `_generate_hocr`, threading all four counters. -/
def render_blocks : List Block → Nat → Nat → Nat → Nat → (Nat × Nat × Nat × Nat) × List String
  | [], block_id, par_id, line_id, word_id => ((block_id, par_id, line_id, word_id), [])
  | b :: bs, block_id, par_id, line_id, word_id =>
    let r := render_block b block_id par_id line_id word_id
    let rest := render_blocks bs r.1.1 r.1.2.1 r.1.2.2.1 r.1.2.2.2
    (rest.1, r.2 ++ rest.2)

/-- The fixed document preamble of `_generate_hocr`
(src/ocr_plugin.py lines 102-113), ending with the page container sized
by the page's width and height. -/
def hocr_header (width height : ℤ) : List String :=
  ["<?xml version=\"1.0\" encoding=\"UTF-8\"?>",
   "<!DOCTYPE html PUBLIC \"-//W3C//DTD XHTML 1.0 Transitional//EN\"",
   "  \"http://www.w3.org/TR/xhtml1/DTD/xhtml1-transitional.dtd\">",
   "<html xmlns=\"http://www.w3.org/1999/xhtml\" xml:lang=\"ko\" lang=\"ko\">",
   "<head>",
   "  <title>Google Vision OCR</title>",
   "  <meta http-equiv=\"Content-Type\" content=\"text/html; charset=utf-8\" />",
   "</head>",
   "<body>",
   s!"  <div class=\"ocr_page\" id=\"page_1\" title=\"bbox 0 0 {width} {height}; ppageno 0\">"]

/-- Embeds `_generate_hocr` (src/ocr_plugin.py lines 100-172): preamble,
the rendered blocks starting from all counters at 0, closing tags, all
joined with newlines. -/
def _generate_hocr (page : Page) (width height : ℤ) : String :=
  String.intercalate "\n"
    (hocr_header width height
      ++ (render_blocks page.blocks 0 0 0 0).2
      ++ ["  </div>", "</body>", "</html>"])

/-- The fixed empty document written by `_write_empty_hocr`
(src/ocr_plugin.py lines 200-211). -/
def empty_hocr_content : String :=
  "<?xml version=\"1.0\" encoding=\"UTF-8\"?>\n"
    ++ "<!DOCTYPE html PUBLIC \"-//W3C//DTD XHTML 1.0 Transitional//EN\"\n"
    ++ "  \"http://www.w3.org/TR/xhtml1/DTD/xhtml1-transitional.dtd\">\n"
    ++ "<html xmlns=\"http://www.w3.org/1999/xhtml\">\n"
    ++ "<head><title>Empty</title></head>\n"
    ++ "<body><div class=\"ocr_page\" title=\"bbox 0 0 1 1\"></div></body>\n"
    ++ "</html>"

/-- An `error` object inside a response entry: optional `message` key
(`annotation["error"].get("message", "Unknown error")`). -/
structure VisionError where
  message? : Option String
  deriving DecidableEq

/-- A `fullTextAnnotation` JSON object: optional full `text` and the
`pages` list (`full_text_annotation.get("pages", [])`). -/
structure FullTextAnno where
  text? : Option String
  pages : List Page
  deriving DecidableEq

/-- One entry of the `responses` list of the service reply.  In the
source this is a JSON dict; the two keys `generate_hocr` reads are
`error` and `fullTextAnnotation` (absent keys are `none`). -/
structure ResponseEntry where
  error? : Option VisionError
  fullTextAnno? : Option FullTextAnno
  deriving DecidableEq

/-- The parsed JSON body of the service reply: the optional `responses`
key (`result.get("responses", [{}])`). -/
structure VisionResult where
  responses? : Option (List ResponseEntry)
  deriving DecidableEq

/-- Outcome of `requests.post(...)` followed by `raise_for_status()`:
either the HTTP layer reports a non-success status (an exception), or a
parsed JSON body is available. -/
inductive HttpOutcome where
  | failure
  | success (result : VisionResult)
  deriving DecidableEq

/-- The world `generate_hocr` interacts with: the
`GOOGLE_VISION_API_KEY` environment variable (`none` when unset) and
what the single outbound network call would yield. -/
structure Env where
  apiKey? : Option String
  http : HttpOutcome
  deriving DecidableEq

/-- Observable side effects of `generate_hocr`, in order: the outbound
network call, and each file write with the content written. -/
inductive Event where
  | netCall
  | writeHocr (content : String)
  | writeText (content : String)
  deriving DecidableEq

/-- The ways `generate_hocr` raises. -/
inductive GenError where
  | configError
  | transportError
  | serviceError (msg : String)
  | indexError
  deriving DecidableEq

/-- Python falsiness of `os.environ.get(...)`: `None` or `""`. -/
def isFalsyKey : Option String → Bool
  | none => true
  | some s => s = ""

/-- Selecting `result.get("responses", [{}])[0]`: a missing key defaults
to `[{}]` whose first element is the empty dict; a present but empty
list makes the `[0]` index raise (`none` here). -/
def first_response (result : VisionResult) : Option ResponseEntry :=
  match result.responses? with
  | none => some ⟨none, none⟩
  | some [] => none
  | some (a :: _) => some a

/-- Embeds `generate_hocr` (src/ocr_plugin.py lines 42-93) as a trace
semantics: the ordered list of observable events that happened before
the call returned or raised, paired with the raised error (`none` on
success).  The base64 encoding of the input image has no observable
effect on the outputs and is not modelled. -/
def generate_hocr (env : Env) : List Event × Option GenError :=
  if isFalsyKey env.apiKey? then ([], some .configError)
  else
    match env.http with
    | .failure => ([.netCall], some .transportError)
    | .success result =>
      match first_response result with
      | none => ([.netCall], some .indexError)
      | some entry =>
        match entry.error? with
        | some err => ([.netCall], some (.serviceError (err.message?.getD "Unknown error")))
        | none =>
          let fta := entry.fullTextAnno?.getD ⟨none, []⟩
          match fta.pages with
          | [] => ([.netCall, .writeHocr empty_hocr_content, .writeText ""], none)
          | page :: _ =>
            let width := page.width?.getD 1
            let height := page.height?.getD 1
            let text := fta.text?.getD ""
            ([.netCall, .writeText text, .writeHocr (_generate_hocr page width height)], none)

/-- Spec-side description of the bbox string format
`"<x1> <y1> <x2> <y2>"`. -/
def bbox_string (x1 y1 x2 y2 : ℤ) : String := s!"{x1} {y1} {x2} {y2}"

/-- Number of (possibly overlapping) occurrences of `pat` in a character
list; used to state containment facts about emitted documents. -/
def occCount (pat : List Char) : List Char → Nat
  | [] => 0
  | c :: rest => (if pat.isPrefixOf (c :: rest) then 1 else 0) + occCount pat rest

/-- A word survives the whitespace filter of `_generate_hocr` iff its
concatenated symbol text is non-empty after stripping. -/
def word_emitted (w : Word) : Bool := !(pyStrip (word_text_of w) == "")

/-- Spec-side per-character escaping: exactly `&`, `<`, `>`, `"` map to
entities, every other character maps to itself. -/
def escape_char (c : Char) : String :=
  if c = '&' then "&amp;"
  else if c = '<' then "&lt;"
  else if c = '>' then "&gt;"
  else if c = '"' then "&quot;"
  else String.mk [c]

end OcrPlugin

namespace OcrPlugin

/-- C3: for every bounding box, the emitted bbox string is derived from
the first and third corner points, each coordinate defaulting to 0 when
missing and clamped to be non-negative; the four example vertices yield
`"0 0 10 5"`, and any vertex list with fewer than four points yields the
degenerate `"0 0 0 0"`. -/
theorem C3_bbox_from_corners (bb : BoundingBox) :
    (bb.vertices.length < 4 → _get_bbox bb = "0 0 0 0") ∧
    (∀ v0 v1 v2 v3 rest, bb.vertices = v0 :: v1 :: v2 :: v3 :: rest →
      _get_bbox bb = bbox_string (max (v0.x?.getD 0) 0) (max (v0.y?.getD 0) 0)
        (max (v2.x?.getD 0) 0) (max (v2.y?.getD 0) 0)) ∧
    (bb.vertices = [⟨some 0, some 0⟩, ⟨some 10, some 0⟩, ⟨some 10, some 5⟩, ⟨some 0, some 5⟩] →
      _get_bbox bb = "0 0 10 5") := by
  obtain ⟨vs⟩ := bb
  refine ⟨?_, ?_, ?_⟩
  · intro h
    match vs, h with
    | [], _ => rfl
    | [_], _ => rfl
    | [_, _], _ => rfl
    | [_, _, _], _ => rfl
    | _ :: _ :: _ :: _ :: _, h => simp at h; omega
  · intro v0 v1 v2 v3 rest h
    simp only at h
    subst h
    rfl
  · intro h
    simp only at h
    subst h
    rfl

/-- Witness for C3 at the example vertex list. -/
theorem C3_bbox_from_corners_witness :
    _get_bbox ⟨[⟨some 0, some 0⟩, ⟨some 10, some 0⟩, ⟨some 10, some 5⟩, ⟨some 0, some 5⟩]⟩
      = "0 0 10 5" :=
  (C3_bbox_from_corners _).2.2 rfl

/-- C10: the bbox string of a bounding box with at least four vertices
depends only on vertices 0 and 2: two such vertex lists agreeing there
produce identical output, whatever vertices 1 and 3 (or any extras)
hold. -/
theorem C10_bbox_depends_only_on_corners (b1 b2 : BoundingBox)
    (h1 : 4 ≤ b1.vertices.length) (h2 : 4 ≤ b2.vertices.length)
    (h0 : b1.vertices[0]? = b2.vertices[0]?)
    (h2v : b1.vertices[2]? = b2.vertices[2]?) :
    _get_bbox b1 = _get_bbox b2 := by
  obtain ⟨vs1⟩ := b1
  obtain ⟨vs2⟩ := b2
  match vs1, vs2, h1, h2 with
  | a0 :: a1 :: a2 :: a3 :: ar, c0 :: c1 :: c2 :: c3 :: cr, _, _ =>
    simp only [List.getElem?_cons_zero, Option.some.injEq] at h0
    have h2v' : a2 = c2 := by simpa using h2v
    subst h0
    subst h2v'
    rfl
  | [], _, h1, _ => simp at h1
  | [_], _, h1, _ => simp at h1
  | [_, _], _, h1, _ => simp at h1
  | [_, _, _], _, h1, _ => simp at h1
  | _ :: _ :: _ :: _ :: _, [], _, h2 => simp at h2
  | _ :: _ :: _ :: _ :: _, [_], _, h2 => simp at h2
  | _ :: _ :: _ :: _ :: _, [_, _], _, h2 => simp at h2
  | _ :: _ :: _ :: _ :: _, [_, _, _], _, h2 => simp at h2

/-- Witness for C10: two vertex lists that differ at vertices 1 and 3
(negative and missing coordinates included) but agree at 0 and 2. -/
theorem C10_bbox_depends_only_on_corners_witness :
    _get_bbox ⟨[⟨some 0, some 0⟩, ⟨some 1, some 2⟩, ⟨some 10, some 5⟩, ⟨some 3, some 4⟩]⟩
      = _get_bbox ⟨[⟨some 0, some 0⟩, ⟨none, some (-7)⟩, ⟨some 10, some 5⟩, ⟨some 9, none⟩,
          ⟨some 99, some 99⟩]⟩ :=
  C10_bbox_depends_only_on_corners _ _ (by decide) (by decide) (by decide) (by decide)

/-- C8: the configuration error is raised not only when the credential
environment variable is absent but also when it is present and bound to
the empty string: the check is on falsiness, not presence. -/
theorem C8_empty_key_is_config_error (env : Env)
    (h : env.apiKey? = none ∨ env.apiKey? = some "") :
    generate_hocr env = ([], some GenError.configError) := by
  rcases h with h | h <;> simp [generate_hocr, isFalsyKey, h]

/-- Witness for C8: the key set to the empty string. -/
theorem C8_empty_key_is_config_error_witness :
    generate_hocr ⟨some "", HttpOutcome.failure⟩ = ([], some GenError.configError) :=
  C8_empty_key_is_config_error _ (Or.inr rfl)

/-- C5: whenever `generate_hocr` raises, no file write happened before
the failure (the trace holds at most the network call), and the
missing-credential failure in particular happens before the network
call (empty trace). -/
theorem C5_failure_writes_nothing (env : Env) (e : GenError)
    (h : (generate_hocr env).2 = some e) :
    (∀ ev ∈ (generate_hocr env).1, ev = Event.netCall) ∧
    (e = GenError.configError → (generate_hocr env).1 = []) := by
  obtain ⟨k, http⟩ := env
  by_cases hk : isFalsyKey k
  · simp [generate_hocr, hk]
  · simp only [Bool.not_eq_true] at hk
    cases http with
    | failure => simp [generate_hocr, hk] at h ⊢; simp [← h]
    | success result =>
      cases hfr : first_response result with
      | none => simp [generate_hocr, hk, hfr] at h ⊢; simp [← h]
      | some entry =>
        cases herr : entry.error? with
        | some err => simp [generate_hocr, hk, hfr, herr] at h ⊢; simp [← h]
        | none =>
          cases hpg : (entry.fullTextAnno?.getD ⟨none, []⟩).pages with
          | nil => simp [generate_hocr, hk, hfr, herr, hpg] at h
          | cons p ps => simp [generate_hocr, hk, hfr, herr, hpg] at h

/-- Witness for C5: the missing credential raises with an empty trace. -/
theorem C5_failure_writes_nothing_witness :
    (∀ ev ∈ (generate_hocr ⟨none, HttpOutcome.failure⟩).1, ev = Event.netCall) ∧
    (GenError.configError = GenError.configError →
      (generate_hocr ⟨none, HttpOutcome.failure⟩).1 = []) :=
  C5_failure_writes_nothing ⟨none, HttpOutcome.failure⟩ GenError.configError (by decide)

/-- C9: a reply whose `responses` key is present but bound to the empty
list makes `generate_hocr` raise the unguarded index error after the
network call, an outcome distinct from every error category of the
spec's taxonomy. -/
theorem C9_empty_responses_index_error (env : Env) (result : VisionResult)
    (hk : isFalsyKey env.apiKey? = false)
    (hh : env.http = HttpOutcome.success result)
    (hr : result.responses? = some []) :
    generate_hocr env = ([Event.netCall], some GenError.indexError) ∧
    (∀ msg, GenError.indexError ≠ GenError.configError ∧
      GenError.indexError ≠ GenError.transportError ∧
      GenError.indexError ≠ GenError.serviceError msg) := by
  constructor
  · obtain ⟨k, http⟩ := env
    simp only at hh
    subst hh
    simp [generate_hocr, hk, first_response, hr]
  · intro msg
    refine ⟨by simp, by simp, by simp⟩

/-- Witness for C9: a present-but-empty `responses` list. -/
theorem C9_empty_responses_index_error_witness :
    generate_hocr ⟨some "key", HttpOutcome.success ⟨some []⟩⟩
      = ([Event.netCall], some GenError.indexError) :=
  (C9_empty_responses_index_error ⟨some "key", HttpOutcome.success ⟨some []⟩⟩ ⟨some []⟩
    (by decide) rfl rfl).1

/-- A zero-page environment used to exercise the empty-output path: a
valid key, a transport-level success, one response entry without error
whose full text has an empty page list. -/
def zero_page_env : Env :=
  ⟨some "key", HttpOutcome.success ⟨some [⟨none, some ⟨some "", []⟩⟩]⟩⟩

set_option maxRecDepth 100000 in
/-- C1 (counterexample to the claim as stated): on a zero-page response
the markup written is the fixed empty document, but its single page
container is a 1-by-1 box (`bbox 0 0 1 1`), not a zero-sized one: the
document contains no `bbox 0 0 0 0` at all. -/
theorem C1_zero_sized_refuted :
    generate_hocr zero_page_env
      = ([Event.netCall, Event.writeHocr empty_hocr_content, Event.writeText ""], none) ∧
    occCount "bbox 0 0 1 1".data empty_hocr_content.data = 1 ∧
    occCount "bbox 0 0 0 0".data empty_hocr_content.data = 0 := by
  refine ⟨by decide, by decide, by decide⟩

set_option maxRecDepth 100000 in
/-- C1 (amended): for every detection response with zero pages,
`generate_hocr` writes the fixed minimal empty markup document — whose
single page container carries a 1-by-1 box and which holds no word
nodes — to the markup path, writes the empty string to the plain-text
path (in that order, after the one network call), and returns without
raising. -/
theorem C1_zero_pages_empty_outputs (env : Env) (result : VisionResult)
    (entry : ResponseEntry)
    (hk : isFalsyKey env.apiKey? = false)
    (hh : env.http = HttpOutcome.success result)
    (hfr : first_response result = some entry)
    (herr : entry.error? = none)
    (hpg : (entry.fullTextAnno?.getD ⟨none, []⟩).pages = []) :
    generate_hocr env
      = ([Event.netCall, Event.writeHocr empty_hocr_content, Event.writeText ""], none) ∧
    occCount "ocr_page".data empty_hocr_content.data = 1 ∧
    occCount "bbox 0 0 1 1".data empty_hocr_content.data = 1 ∧
    occCount "ocrx_word".data empty_hocr_content.data = 0 := by
  refine ⟨?_, by decide, by decide, by decide⟩
  obtain ⟨k, http⟩ := env
  simp only at hh
  subst hh
  simp [generate_hocr, hk, hfr, herr, hpg]

set_option maxRecDepth 100000 in
/-- Witness for C1 (amended) at the concrete zero-page environment. -/
theorem C1_zero_pages_empty_outputs_witness :
    generate_hocr zero_page_env
      = ([Event.netCall, Event.writeHocr empty_hocr_content, Event.writeText ""], none) ∧
    occCount "ocr_page".data empty_hocr_content.data = 1 ∧
    occCount "bbox 0 0 1 1".data empty_hocr_content.data = 1 ∧
    occCount "ocrx_word".data empty_hocr_content.data = 0 :=
  C1_zero_pages_empty_outputs zero_page_env ⟨some [⟨none, some ⟨some "", []⟩⟩]⟩
    ⟨none, some ⟨some "", []⟩⟩ (by decide) rfl rfl rfl rfl

/-- C4: a word whose concatenated symbol text strips to nothing emits no
leaf node and leaves the word-id counter untouched, so dropping it from
any word list leaves the rendered output and all subsequent word ids
unchanged. -/
theorem C4_whitespace_word_skipped (w : Word) (ws1 ws2 : List Word) (n : Nat)
    (h : pyStrip (word_text_of w) = "") :
    render_word w n = (n, []) ∧
    render_words (ws1 ++ w :: ws2) n = render_words (ws1 ++ ws2) n := by
  have hw : ∀ m, render_word w m = (m, []) := by
    intro m
    simp [render_word, h]
  refine ⟨hw n, ?_⟩
  induction ws1 generalizing n with
  | nil => simp [render_words, hw]
  | cons a ws1 ih => simp [render_words, ih]

/-- Witness for C4: a word made of the symbols `" "`, `"\t"` and a
non-breaking space (U+00A0) is dropped between two non-empty words. -/
theorem C4_whitespace_word_skipped_witness :
    render_word ⟨none, [⟨some " ", none⟩, ⟨some "\t", none⟩, ⟨some "\u00a0", none⟩]⟩ 0 = (0, []) ∧
    render_words ([⟨none, [⟨some "Hi", none⟩]⟩]
        ++ ⟨none, [⟨some " ", none⟩, ⟨some "\t", none⟩, ⟨some "\u00a0", none⟩]⟩ :: [⟨none, [⟨some "Yo", none⟩]⟩]) 0
      = render_words ([⟨none, [⟨some "Hi", none⟩]⟩] ++ [⟨none, [⟨some "Yo", none⟩]⟩]) 0 :=
  C4_whitespace_word_skipped ⟨none, [⟨some " ", none⟩, ⟨some "\t", none⟩, ⟨some "\u00a0", none⟩]⟩
    [⟨none, [⟨some "Hi", none⟩]⟩] [⟨none, [⟨some "Yo", none⟩]⟩] 0 (by decide)

/-- On non-negative rationals Python's `int()` truncation coincides with
the floor. -/
theorem pyInt_eq_floor (q : ℚ) (h : 0 ≤ q) : pyInt q = Int.floor q := by
  rw [pyInt, Rat.floor_def]
  obtain ⟨m, hm⟩ := Int.eq_ofNat_of_zero_le (Rat.num_nonneg.mpr h)
  rw [hm]
  rfl

/-- C2: the emitted word confidence is the integer 0-100 obtained by
scaling the mean of the symbols' confidence values (defaulting to 0.9
when absent): it is the floor of `mean * 100`, lands in `[0, 100]`
whenever the confidences do lie in `[0, 1]`, is 90 for a word with no
symbols, and is 90 for symbol confidences `[0.8, 1.0]`. -/
theorem C2_confidence_mean (w : Word)
    (h : ∀ s ∈ w.symbols, ∀ q ∈ s.confidence?, 0 ≤ q ∧ q ≤ 1) :
    (0 ≤ _get_confidence w ∧ _get_confidence w ≤ 100) ∧
    (w.symbols ≠ [] →
      _get_confidence w =
        Int.floor ((w.symbols.map (fun s => s.confidence?.getD (9/10))).sum
          / ((w.symbols.map (fun s => s.confidence?.getD (9/10))).length : ℚ) * 100)) ∧
    (w.symbols = [] → _get_confidence w = 90) ∧
    (w.symbols.map (fun s => s.confidence?.getD (9/10)) = [4/5, 1] →
      _get_confidence w = 90) := by
  have hconf : ∀ q ∈ w.symbols.map (fun s => s.confidence?.getD (9/10)), 0 ≤ q ∧ q ≤ 1 := by
    intro q hq
    rw [List.mem_map] at hq
    obtain ⟨s, hs, rfl⟩ := hq
    cases hc : s.confidence? with
    | none => norm_num [hc]
    | some c => simpa [hc] using h s hs c (by simp [hc])
  cases hsym : w.symbols with
  | nil =>
    refine ⟨by norm_num [_get_confidence, hsym], by simp, fun _ => by simp [_get_confidence, hsym], ?_⟩
    intro hm
    simp at hm
  | cons s0 ss =>
    rw [hsym] at hconf
    have hval : _get_confidence w =
        pyInt (((s0 :: ss).map (fun s => s.confidence?.getD (9/10))).sum
          / (((s0 :: ss).map (fun s => s.confidence?.getD (9/10))).length : ℚ) * 100) := by
      simp only [_get_confidence, hsym, List.isEmpty_cons, if_false, Bool.false_eq_true]
    set confs := (s0 :: ss).map (fun s => s.confidence?.getD (9/10)) with hcs
    have hlpos : (0 : ℚ) < (confs.length : ℚ) := by
      have : 0 < confs.length := by simp [hcs]
      exact_mod_cast this
    have hsum0 : 0 ≤ confs.sum := List.sum_nonneg fun q hq => (hconf q hq).1
    have hsum1 : confs.sum ≤ (confs.length : ℚ) := by
      simpa using List.sum_le_card_nsmul confs 1 fun q hq => (hconf q hq).2
    have havg0 : 0 ≤ confs.sum / (confs.length : ℚ) := div_nonneg hsum0 hlpos.le
    have havg1 : confs.sum / (confs.length : ℚ) ≤ 1 := div_le_one_of_le₀ hsum1 hlpos.le
    have h0 : (0 : ℚ) ≤ confs.sum / (confs.length : ℚ) * 100 := by nlinarith
    have h100 : confs.sum / (confs.length : ℚ) * 100 ≤ 100 := by nlinarith
    have hfloor : _get_confidence w = Int.floor (confs.sum / (confs.length : ℚ) * 100) := by
      rw [hval, pyInt_eq_floor _ h0]
    refine ⟨?_, ?_, ?_, ?_⟩
    · rw [hfloor]
      constructor
      · exact Int.le_floor.mpr (by exact_mod_cast h0)
      · calc Int.floor (confs.sum / (confs.length : ℚ) * 100) ≤ Int.floor (100 : ℚ) :=
              Int.floor_le_floor h100
          _ = 100 := by norm_num
    · intro _
      exact hfloor
    · intro he
      simp at he
    · intro hm
      rw [hm] at hval
      rw [hval]
      rw [show ((4 : ℚ)/5 :: (1 : ℚ) :: []).sum = 9/5 by norm_num]
      norm_num [pyInt]

/-- Witness for C2 at a word with symbol confidences 0.8 and 1.0. -/
theorem C2_confidence_mean_witness :
    let w : Word := ⟨none, [⟨some "a", some (4/5)⟩, ⟨some "b", some 1⟩]⟩
    (0 ≤ _get_confidence w ∧ _get_confidence w ≤ 100) ∧
    (w.symbols ≠ [] →
      _get_confidence w =
        Int.floor ((w.symbols.map (fun s => s.confidence?.getD (9/10))).sum
          / ((w.symbols.map (fun s => s.confidence?.getD (9/10))).length : ℚ) * 100)) ∧
    (w.symbols = [] → _get_confidence w = 90) ∧
    (w.symbols.map (fun s => s.confidence?.getD (9/10)) = [4/5, 1] →
      _get_confidence w = 90) :=
  C2_confidence_mean ⟨none, [⟨some "a", some (4/5)⟩, ⟨some "b", some 1⟩]⟩
    (by
      intro s hs q hq
      simp only [List.mem_cons, List.not_mem_nil, or_false] at hs
      rcases hs with rfl | rfl <;> simp only [Option.mem_def, Option.some.injEq] at hq <;>
        subst hq <;> norm_num)

/-- Replacing one character distributes over list concatenation. -/
theorem replace_each_append (c : Char) (r : List Char) (l1 l2 : List Char) :
    replace_each c r (l1 ++ l2) = replace_each c r l1 ++ replace_each c r l2 := by
  induction l1 with
  | nil => simp [replace_each]
  | cons a l1 ih => simp [replace_each, ih]

/-- The full four-step escaping chain distributes over concatenation. -/
theorem escape_chain_append (l1 l2 : List Char) :
    replace_each '"' "&quot;".data (replace_each '>' "&gt;".data
      (replace_each '<' "&lt;".data (replace_each '&' "&amp;".data (l1 ++ l2))))
      = replace_each '"' "&quot;".data (replace_each '>' "&gt;".data
          (replace_each '<' "&lt;".data (replace_each '&' "&amp;".data l1)))
        ++ replace_each '"' "&quot;".data (replace_each '>' "&gt;".data
            (replace_each '<' "&lt;".data (replace_each '&' "&amp;".data l2))) := by
  rw [replace_each_append '&', replace_each_append '<', replace_each_append '>',
    replace_each_append]

/-- On a single character the escaping chain agrees with the spec-side
per-character map. -/
theorem escape_chain_single (c : Char) :
    replace_each '"' "&quot;".data (replace_each '>' "&gt;".data
      (replace_each '<' "&lt;".data (replace_each '&' "&amp;".data [c])))
      = (escape_char c).data := by
  by_cases h1 : c = '&'
  · subst h1; decide
  by_cases h2 : c = '<'
  · subst h2; decide
  by_cases h3 : c = '>'
  · subst h3; decide
  by_cases h4 : c = '"'
  · subst h4; decide
  simp [replace_each, escape_char, h1, h2, h3, h4]

/-- C7: the emitted word text is exactly the input mapped character by
character, where `&`, `<`, `>`, `"` become their entity equivalents and
every other character maps to itself — so the result is independent of
the order of occurrences, and an ampersand introduced by an earlier
replacement is never re-escaped (demonstrated on `"<&"` and on the
already-entity-looking `"&lt;"`). -/
theorem C7_escape_per_char (t : String) :
    (_escape_word_text t).data = (t.data.map (fun c => (escape_char c).data)).flatten ∧
    (escape_char '&' = "&amp;" ∧ escape_char '<' = "&lt;" ∧
      escape_char '>' = "&gt;" ∧ escape_char '"' = "&quot;") ∧
    (∀ c : Char, c ≠ '&' → c ≠ '<' → c ≠ '>' → c ≠ '"' → escape_char c = String.mk [c]) ∧
    _escape_word_text "<&" = "&lt;&amp;" ∧
    _escape_word_text "&lt;" = "&amp;lt;" := by
  refine ⟨?_, by refine ⟨rfl, rfl, rfl, rfl⟩, ?_, by decide, by decide⟩
  · obtain ⟨l⟩ := t
    show replace_each '"' "&quot;".data (replace_each '>' "&gt;".data
      (replace_each '<' "&lt;".data (replace_each '&' "&amp;".data l)))
      = (l.map (fun c => (escape_char c).data)).flatten
    induction l with
    | nil => rfl
    | cons c cs ih =>
      calc replace_each '"' "&quot;".data (replace_each '>' "&gt;".data
            (replace_each '<' "&lt;".data (replace_each '&' "&amp;".data ([c] ++ cs))))
          = (escape_char c).data ++ replace_each '"' "&quot;".data (replace_each '>' "&gt;".data
              (replace_each '<' "&lt;".data (replace_each '&' "&amp;".data cs))) := by
            rw [escape_chain_append, escape_chain_single]
        _ = ((c :: cs).map (fun c => (escape_char c).data)).flatten := by
            rw [ih]; simp [List.flatten_cons]
  · intro c h1 h2 h3 h4
    simp [escape_char, h1, h2, h3, h4]

/-- Witness for C7's conditional parts at concrete characters. -/
theorem C7_escape_per_char_witness :
    (_escape_word_text "a&b").data
      = ("a&b".data.map (fun c => (escape_char c).data)).flatten ∧
    escape_char 'x' = String.mk ['x'] :=
  ⟨(C7_escape_per_char "a&b").1,
   (C7_escape_per_char "a&b").2.2.1 'x' (by decide) (by decide) (by decide) (by decide)⟩

/-- Total number of words surviving the whitespace filter across a
paragraph list. -/
def words_emitted_in (ps : List Paragraph) : Nat :=
  (ps.map (fun pg => (pg.words.filter word_emitted).length)).sum

/-- Total number of paragraphs across a block list. -/
def paragraphs_in (bs : List Block) : Nat :=
  (bs.map (fun b => b.paragraphs.length)).sum

/-- Total number of emitted words across a block list. -/
def words_emitted_in_blocks (bs : List Block) : Nat :=
  (bs.map (fun b => words_emitted_in b.paragraphs)).sum

/-- The word loop advances the word counter by exactly the number of
words surviving the whitespace filter. -/
theorem render_words_counter (ws : List Word) (n : Nat) :
    (render_words ws n).1 = n + (ws.filter word_emitted).length := by
  induction ws generalizing n with
  | nil => simp [render_words]
  | cons w ws ih =>
    by_cases h : pyStrip (word_text_of w) = ""
    · have hw : render_word w n = (n, []) := by simp [render_word, h]
      have he : word_emitted w = false := by simp [word_emitted, h]
      simp [render_words, hw, he, ih]
    · have hw : (render_word w n).1 = n + 1 := by simp [render_word, h]
      have he : word_emitted w = true := by simp [word_emitted, h]
      simp [render_words, hw, he, ih]
      omega

/-- A paragraph consumes exactly one paragraph id and one line id. -/
theorem render_paragraph_counter (pg : Paragraph) (p l n : Nat) :
    (render_paragraph pg p l n).1
      = (p + 1, l + 1, n + (pg.words.filter word_emitted).length) := by
  simp [render_paragraph, render_words_counter]

/-- The paragraph loop advances the paragraph and line counters in
lockstep by the paragraph count and the word counter by the emitted
word count. -/
theorem render_paragraphs_counter (ps : List Paragraph) (p l n : Nat) :
    (render_paragraphs ps p l n).1
      = (p + ps.length, l + ps.length, n + words_emitted_in ps) := by
  induction ps generalizing p l n with
  | nil => simp [render_paragraphs, words_emitted_in]
  | cons pg ps ih =>
    simp [render_paragraphs, render_paragraph_counter, ih, words_emitted_in]
    omega

/-- A block consumes exactly one block id. -/
theorem render_block_counter (blk : Block) (b p l n : Nat) :
    (render_block blk b p l n).1
      = (b + 1, p + blk.paragraphs.length, l + blk.paragraphs.length,
         n + words_emitted_in blk.paragraphs) := by
  simp [render_block, render_paragraphs_counter]

/-- The block loop advances all four counters by their document totals. -/
theorem render_blocks_counter (blocks : List Block) (b p l n : Nat) :
    (render_blocks blocks b p l n).1
      = (b + blocks.length, p + paragraphs_in blocks, l + paragraphs_in blocks,
         n + words_emitted_in_blocks blocks) := by
  induction blocks generalizing b p l n with
  | nil => simp [render_blocks, paragraphs_in, words_emitted_in_blocks]
  | cons blk blocks ih =>
    simp [render_blocks, render_block_counter, ih, paragraphs_in, words_emitted_in_blocks]
    omega

/-- Example word "Hello" (one symbol, no explicit confidence). -/
def c6_word1 : Word :=
  ⟨some ⟨[⟨some 0, some 0⟩, ⟨some 10, some 0⟩, ⟨some 10, some 5⟩, ⟨some 0, some 5⟩]⟩,
   [⟨some "Hello", none⟩]⟩

/-- Example word "World" (one symbol, confidence 0.95). -/
def c6_word2 : Word :=
  ⟨some ⟨[⟨some 12, some 0⟩, ⟨some 20, some 0⟩, ⟨some 20, some 5⟩, ⟨some 12, some 5⟩]⟩,
   [⟨some "World", some (19/20)⟩]⟩

/-- Example paragraph holding the two example words. -/
def c6_par : Paragraph :=
  ⟨some ⟨[⟨some 0, some 0⟩, ⟨some 20, some 0⟩, ⟨some 20, some 5⟩, ⟨some 0, some 5⟩]⟩,
   [c6_word1, c6_word2]⟩

/-- Example block holding the one example paragraph. -/
def c6_block : Block :=
  ⟨some ⟨[⟨some 0, some 0⟩, ⟨some 20, some 0⟩, ⟨some 20, some 5⟩, ⟨some 0, some 5⟩]⟩,
   [c6_par]⟩

/-- The lines the example block must render to: one block container, one
paragraph container, one line container, two word leaves, in that order,
with every id category starting at 1. -/
def c6_expected : List String :=
  ["    <div class=\"ocr_carea\" id=\"block_1\" title=\"bbox 0 0 20 5\">",
   "      <p class=\"ocr_par\" id=\"par_1\" title=\"bbox 0 0 20 5\">",
   "        <span class=\"ocr_line\" id=\"line_1\" title=\"bbox 0 0 20 5\">",
   "          <span class=\"ocrx_word\" id=\"word_1\" title=\"bbox 0 0 10 5; x_wconf 90\">Hello</span>",
   "          <span class=\"ocrx_word\" id=\"word_2\" title=\"bbox 12 0 20 5; x_wconf 95\">World</span>",
   "        </span>",
   "      </p>",
   "    </div>"]

set_option maxRecDepth 100000 in
/-- C6: the transcoder emits, in source order, one block container per
block, one paragraph container and exactly one synthetic line container
(sharing the paragraph's bbox string) per paragraph, with the four
counters advancing independently and consecutively (so ids start at 1
in document order); the one-block one-paragraph two-word example renders
to exactly one block, one paragraph, one line and two word leaves in
that order. -/
theorem C6_containers_and_counters :
    (∀ blocks b p l n, (render_blocks blocks b p l n).1
      = (b + blocks.length, p + paragraphs_in blocks, l + paragraphs_in blocks,
         n + words_emitted_in_blocks blocks)) ∧
    (∀ pg p l n, ∃ bb : String,
      (render_paragraph pg p l n).2 =
        [s!"      <p class=\"ocr_par\" id=\"par_{p + 1}\" title=\"bbox {bb}\">",
         s!"        <span class=\"ocr_line\" id=\"line_{l + 1}\" title=\"bbox {bb}\">"]
        ++ (render_words pg.words n).2 ++ ["        </span>", "      </p>"]) ∧
    (∀ blk b p l n, ∃ bb : String,
      (render_block blk b p l n).2 =
        s!"    <div class=\"ocr_carea\" id=\"block_{b + 1}\" title=\"bbox {bb}\">"
          :: ((render_paragraphs blk.paragraphs p l n).2 ++ ["    </div>"])) ∧
    render_blocks [c6_block] 0 0 0 0 = ((1, 1, 1, 2), c6_expected) := by
  refine ⟨render_blocks_counter, ?_, ?_, ?_⟩
  · intro pg p l n
    exact ⟨_get_bbox (pg.boundingBox?.getD ⟨[]⟩), rfl⟩
  · intro blk b p l n
    exact ⟨_get_bbox (blk.boundingBox?.getD ⟨[]⟩), rfl⟩
  · have h1 : _get_confidence c6_word1 = 90 := by
      norm_num [_get_confidence, c6_word1, pyInt]
    have h2 : _get_confidence c6_word2 = 95 := by
      norm_num [_get_confidence, c6_word2, pyInt]
    simp only [c6_block, c6_par, render_blocks, render_block, render_paragraphs,
      render_paragraph, render_words, render_word, h1, h2]
    decide

end OcrPlugin
